import Mathlib

/-!
Shallow embedding of the `funpack-ble-temperature` application
(`src/ui/src/main.rs`) and verification of its specification.

Modelling conventions:
* Bytes are `Nat`; every byte access reduces modulo 256, matching `u8`.
* `f32` arithmetic is modelled as exact rational arithmetic over `ℚ`
  (the literal `1.8` denotes the exact rational 9/5).
* Fallible operations return `Option`; a Rust `unwrap()` on `None`
  (a panic) is modelled by an explicit `panicked` outcome.
-/

set_option autoImplicit false

namespace BLETemp

/-- `u32::from_le_bytes([b0, b1, b2, b3])`: the little-endian 32-bit word
assembled from four bytes.  Each argument is reduced mod 256 to model `u8`. -/
def u32_from_le_bytes (b0 b1 b2 b3 : Nat) : Nat :=
  b0 % 256 + b1 % 256 * 256 + b2 % 256 * 65536 + b3 % 256 * 16777216

/-- The four little-endian bytes of a 32-bit value `m`. -/
def le32 (m : Nat) : List Nat :=
  [m % 256, m / 256 % 256, m / 65536 % 256, m / 16777216 % 256]

namespace TemperatureSendor

/-- `TemperatureSendor::decode` (src/ui/src/main.rs).  Returns `none` when
`buf.len() != 5`; otherwise `buf[0] == 1` decides Fahrenheit, the last four
bytes are read as a little-endian `u32` and masked with `0x00ffffff`
(that is, reduced mod 2^24), divided by 1000, and Fahrenheit values are
converted via `(v - 32) / 1.8`.  `f32` arithmetic is modelled exactly
over `ℚ`; for a 5-byte buffer the `buf[1..].try_into().unwrap()` always
succeeds, so no other failure exists. -/
def decode (buf : List Nat) : Option ℚ :=
  match buf with
  | [flags, b1, b2, b3, b4] =>
    let is_fahrenheit := flags == 1
    let value : Nat := u32_from_le_bytes b1 b2 b3 b4 % 16777216
    let v : ℚ := (value : ℚ) / 1000
    some (if is_fahrenheit then (v - 32) / 1.8 else v)
  | _ => none

/-- The notification drain loop at the end of `TemperatureSendor::run`:
`while let Some(data) = stream.next().await { if let Some(temp) =
self.decode(&data.value) { self.tx.send(temp)?; ... } }`.
The input is the in-order list of delivered notification payloads, the
output the in-order list of values sent on the channel (`tx.send` is
modelled as always succeeding: the receiver is alive for the whole run). -/
def run (stream : List (List Nat)) : List ℚ :=
  match stream with
  | [] => []
  | data :: rest =>
    match decode data with
    | some temp => temp :: run rest
    | none => run rest

/-- The advertised properties of a discovered peripheral
(`btleplug::api::PeripheralProperties`, restricted to the field the code
reads): `local_name` is `None` when the peripheral advertised no name. -/
structure PeripheralProperties where
  local_name : Option String
deriving DecidableEq

/-- A discovered peripheral as `find_sensor` sees it.
`properties = none` models `p.properties().await` yielding `Ok(None)`
(no properties known for the peripheral). -/
structure Peripheral where
  properties : Option PeripheralProperties
deriving DecidableEq

/-- Outcome of `TemperatureSendor::find_sensor`:
`ok p` is `Ok(p)`, `err` is `Err(btleplug::Error::DeviceNotFound)`
(reported as `NoSensor`), and `panicked` models the panic raised by
`.unwrap()` applied to `None`. -/
inductive FindResult
  | ok (p : Peripheral)
  | err
  | panicked
deriving DecidableEq

/-- `name.contains("Temperature")`: case-sensitive substring test,
modelled on the character list of the string. -/
def name_matches (name : String) : Bool :=
  name.data.tails.any fun t => "Temperature".data.isPrefixOf t

/-- `TemperatureSendor::find_sensor` (src/ui/src/main.rs).  For each
peripheral in enumeration order, `p.properties().await.unwrap().unwrap()`
panics when the properties are absent; otherwise
`.local_name.iter().any(|name| name.contains("Temperature"))` is `false`
for a missing local name (the `Option` iterator is empty) and the
peripheral is skipped.  Returns `Err(DeviceNotFound)` when the list is
exhausted. -/
def find_sensor (peripherals : List Peripheral) : FindResult :=
  match peripherals with
  | [] => .err
  | p :: rest =>
    match p.properties with
    | none => .panicked
    | some props =>
      if props.local_name.any name_matches then .ok p
      else find_sensor rest

/-- Whether a peripheral's advertised local name contains `"Temperature"`,
as a predicate on the modelled peripheral (used to state the selection
rule; a peripheral without properties or without a name does not match). -/
def peripheral_matches (p : Peripheral) : Bool :=
  p.properties.any fun props => props.local_name.any name_matches

end TemperatureSendor

namespace UI

/-- The capacity of `UI.measures`: `VecDeque::with_capacity(10)` allocates
space for exactly 10 elements, and `self.measures.capacity()` returns 10
throughout (the deque never grows past its capacity, see `update`). -/
def capacity : Nat := 10

/-- The sample-handling prefix of `UI::update` (one frame receiving one
sample from the channel): `if self.measures.len() >= self.measures.capacity()
{ self.measures.pop_front(); } self.measures.push_back(temp);`.
The `VecDeque<f32>` is modelled as a `List ℚ`, front at the head. -/
def update (measures : List ℚ) (temp : ℚ) : List ℚ :=
  (if capacity ≤ measures.length then measures.tail else measures) ++ [temp]

/-- The display sink's window after a sequence of sample arrivals,
starting from the empty deque built by `UI::new` and handling one arrival
per frame, in order. -/
def process (samples : List ℚ) : List ℚ :=
  samples.foldl update []

end UI

/-! ## Helper lemmas -/

/-- `decode` succeeds exactly on 5-byte buffers (helper). -/
lemma decode_length (b : List Nat) :
    (TemperatureSendor.decode b).isSome ↔ b.length = 5 := by
  rcases b with _ | ⟨f, _ | ⟨b1, _ | ⟨b2, _ | ⟨b3, _ | ⟨b4, _ | ⟨b5, rest⟩⟩⟩⟩⟩⟩ <;>
    simp [TemperatureSendor.decode]

/-- A buffer whose length is not 5 decodes to `none` (helper). -/
lemma decode_eq_none {b : List Nat} (h : b.length ≠ 5) :
    TemperatureSendor.decode b = none := by
  have := (decode_length b).not.mpr h
  simpa [Option.not_isSome_iff_eq_none] using this

/-! ## Decoder theorems -/

/-- C4: `decode b` yields a sample if and only if `b` has length exactly 5;
for any other length it returns `none`, and no other failure exists
(`decode` is a total function on all byte buffers). -/
theorem decode_some_iff_len5 (b : List Nat) :
    (TemperatureSendor.decode b).isSome ↔ b.length = 5 :=
  decode_length b

/-- C5: for every 24-bit `m`, decoding the payload `[0x00] ++ le32 m`
yields exactly `m / 1000` (with `f32` arithmetic modelled exactly:
a 24-bit integer converts to `f32` without error, so the emitted float
is the rounding of this rational). -/
theorem decode_celsius_identity (m : Nat) (hm : m < 16777216) :
    TemperatureSendor.decode (0 :: le32 m) = some ((m : ℚ) / 1000) := by
  have hv : u32_from_le_bytes (m % 256) (m / 256 % 256) (m / 65536 % 256)
      (m / 16777216 % 256) % 16777216 = m := by
    simp only [u32_from_le_bytes]
    omega
  simp [TemperatureSendor.decode, le32, hv]

/-- Witness for C5 at `m = 24016` (payload `00 D0 5D 00 00`, scenario S1):
the decoded value is `24016 / 1000 = 24.016`. -/
theorem decode_celsius_identity_w :
    TemperatureSendor.decode (0 :: le32 24016) = some ((24016 : ℚ) / 1000) ∧
    (24016 : ℚ) / 1000 = 24.016 :=
  ⟨decode_celsius_identity 24016 (by norm_num), by norm_num⟩

/-- C6 (amended): for every 24-bit `m`, decoding `[0x01] ++ le32 m`
yields exactly `(m / 1000 - 32) / 1.8` — the Fahrenheit-to-Celsius
conversion of `v = m / 1000` (modelled over exact rationals, the
conversion holds exactly, hence within one ULP of the real value). -/
theorem decode_fahrenheit_conversion (m : Nat) (hm : m < 16777216) :
    TemperatureSendor.decode (1 :: le32 m) = some (((m : ℚ) / 1000 - 32) / 1.8) := by
  have hv : u32_from_le_bytes (m % 256) (m / 256 % 256) (m / 65536 % 256)
      (m / 16777216 % 256) % 16777216 = m := by
    simp only [u32_from_le_bytes]
    omega
  simp [TemperatureSendor.decode, le32, hv]

/-- Witness for C6 (amended) at `m = 57936` (payload `01 50 E2 00 00`):
the decoded value is `(57.936 - 32) / 1.8 = 3242 / 225 ≈ 14.4089`. -/
theorem decode_fahrenheit_conversion_w :
    TemperatureSendor.decode (1 :: le32 57936) = some (((57936 : ℚ) / 1000 - 32) / 1.8) ∧
    ((57936 : ℚ) / 1000 - 32) / 1.8 = 3242 / 225 :=
  ⟨decode_fahrenheit_conversion 57936 (by norm_num), by norm_num⟩

/-- Counterexample for C6 as stated: payload `01 50 E2 00 00` decodes to
`3242 / 225 ≈ 14.4089`, which is more than 11 below the claimed value
`≈ 25.5556` ( `(57.936 - 32) / 1.8` is `14.4089`, not `25.5556`). -/
theorem decode_s2_counterexample :
    TemperatureSendor.decode [0x01, 0x50, 0xE2, 0x00, 0x00] = some ((3242 : ℚ) / 225) ∧
    (25.5556 : ℚ) - (3242 : ℚ) / 225 > 11 := by
  constructor
  · norm_num [TemperatureSendor.decode, u32_from_le_bytes]
  · norm_num

/-- C1 (amended): the unit is decided by the whole flags byte being equal
to `0x01`, not by bit 0 alone: any flags byte other than `0x01` decodes
exactly like flags `0x00` (Celsius, the masked value divided by 1000). -/
theorem decode_unit_whole_byte (f b1 b2 b3 b4 : Nat) (hf : f ≠ 1) :
    TemperatureSendor.decode [f, b1, b2, b3, b4]
      = TemperatureSendor.decode [0, b1, b2, b3, b4] ∧
    TemperatureSendor.decode [f, b1, b2, b3, b4]
      = some (((u32_from_le_bytes b1 b2 b3 b4 % 16777216 : Nat) : ℚ) / 1000) := by
  have h : (f == 1) = false := by simp [hf]
  constructor <;> simp [TemperatureSendor.decode, h]

/-- Witness for C1 (amended) at flags `0x03` (payload `03 D0 5D 00 00`). -/
theorem decode_unit_whole_byte_w :
    TemperatureSendor.decode [3, 208, 93, 0, 0]
      = TemperatureSendor.decode [0, 208, 93, 0, 0] ∧
    TemperatureSendor.decode [3, 208, 93, 0, 0]
      = some (((u32_from_le_bytes 208 93 0 0 % 16777216 : Nat) : ℚ) / 1000) :=
  decode_unit_whole_byte 3 208 93 0 0 (by norm_num)

/-- Counterexample for C1 as stated: flags byte `0x03` (bit 0 set) is
not decoded as Fahrenheit — it decodes to the Celsius value `24.016`,
differently from flags byte `0x01` on the same numeric bytes. -/
theorem decode_flags3_counterexample :
    TemperatureSendor.decode [0x03, 0xD0, 0x5D, 0x00, 0x00]
      ≠ TemperatureSendor.decode [0x01, 0xD0, 0x5D, 0x00, 0x00] ∧
    TemperatureSendor.decode [0x03, 0xD0, 0x5D, 0x00, 0x00] = some (24.016 : ℚ) := by
  constructor
  · norm_num [TemperatureSendor.decode, u32_from_le_bytes]
  · norm_num [TemperatureSendor.decode, u32_from_le_bytes]

/-- C7: the last payload byte (the top 8 bits of the little-endian 32-bit
numeric field) never affects the decoded output, and concretely payload
`00 D0 5D 00 FF` decodes to `24.016` (scenario S3). -/
theorem decode_mask_top_byte :
    (∀ f b1 b2 b3 x y : Nat,
      TemperatureSendor.decode [f, b1, b2, b3, x]
        = TemperatureSendor.decode [f, b1, b2, b3, y]) ∧
    TemperatureSendor.decode [0x00, 0xD0, 0x5D, 0x00, 0xFF] = some (24.016 : ℚ) := by
  constructor
  · intro f b1 b2 b3 x y
    have h : u32_from_le_bytes b1 b2 b3 x % 16777216
        = u32_from_le_bytes b1 b2 b3 y % 16777216 := by
      simp only [u32_from_le_bytes]
      omega
    simp [TemperatureSendor.decode, h]
  · norm_num [TemperatureSendor.decode, u32_from_le_bytes]

/-- C10: every 5-byte payload whose flags byte is not `1` (hence not
treated as Fahrenheit) decodes to a value in `[0, 16777.215]`: the masked
24-bit value divided by 1000 is never negative. -/
theorem decode_nonfahrenheit_range (f b1 b2 b3 b4 : Nat) (hf : f ≠ 1) :
    ∃ q : ℚ, TemperatureSendor.decode [f, b1, b2, b3, b4] = some q ∧
      0 ≤ q ∧ q ≤ 16777215 / 1000 := by
  have h : (f == 1) = false := by simp [hf]
  refine ⟨((u32_from_le_bytes b1 b2 b3 b4 % 16777216 : Nat) : ℚ) / 1000, ?_, ?_, ?_⟩
  · simp [TemperatureSendor.decode, h]
  · positivity
  · have hv : ((u32_from_le_bytes b1 b2 b3 b4 % 16777216 : Nat) : ℚ) ≤ 16777215 := by
      exact_mod_cast (by omega : u32_from_le_bytes b1 b2 b3 b4 % 16777216 ≤ 16777215)
    linarith

/-- Witness for C10 at payload `00 D0 5D 00 00`. -/
theorem decode_nonfahrenheit_range_w :
    ∃ q : ℚ, TemperatureSendor.decode [0, 208, 93, 0, 0] = some q ∧
      0 ≤ q ∧ q ≤ 16777215 / 1000 :=
  decode_nonfahrenheit_range 0 208 93 0 0 (by norm_num)

/-! ## Pipeline and display-sink theorems -/

/-- C9: the values sent on the channel by the notification loop are
exactly the in-order successful decodes of the delivered payloads
(`List.filterMap`), and a payload of length other than 5 is dropped:
the loop goes on with the rest of the stream and emits nothing for it. -/
theorem run_emits_decoded :
    (∀ stream : List (List Nat),
      TemperatureSendor.run stream = stream.filterMap TemperatureSendor.decode) ∧
    (∀ data stream, data.length ≠ 5 →
      TemperatureSendor.run (data :: stream) = TemperatureSendor.run stream) := by
  have main : ∀ stream : List (List Nat),
      TemperatureSendor.run stream = stream.filterMap TemperatureSendor.decode := by
    intro s
    induction s with
    | nil => rfl
    | cons d rest ih =>
      cases h : TemperatureSendor.decode d <;>
        simp [TemperatureSendor.run, List.filterMap_cons, h, ih]
  refine ⟨main, ?_⟩
  intro d s hd
  simp [TemperatureSendor.run, decode_eq_none hd]

/-- Witness for C9: a 4-byte payload at the head of the stream emits
nothing and does not terminate the loop. -/
theorem run_emits_decoded_w :
    TemperatureSendor.run [[0, 208, 93, 0]] = TemperatureSendor.run [] :=
  run_emits_decoded.2 [0, 208, 93, 0] [] (by decide)

/-- C2: after any sequence of sample arrivals, the display window holds
exactly the last `min (arrivals, 10)` samples in arrival order (the
suffix `drop (n - 10)` of the arrival list), so its length never
exceeds 10. -/
theorem ui_rolling_window (samples : List ℚ) :
    (UI.process samples).length = min samples.length 10 ∧
    UI.process samples = samples.drop (samples.length - 10) := by
  have main : ∀ s : List ℚ, UI.process s = s.drop (s.length - 10) := by
    intro s
    induction s using List.reverseRecOn with
    | nil => rfl
    | append_singleton xs x ih =>
      have hstep : UI.process (xs ++ [x]) = UI.update (UI.process xs) x := by
        simp [UI.process, List.foldl_append]
      rw [hstep, ih]
      by_cases hn : xs.length < 10
      · have h0 : xs.length - 10 = 0 := by omega
        have h1 : xs.length + 1 - 10 = 0 := by omega
        have h2 : ¬ UI.capacity ≤ xs.length := by
          rw [show UI.capacity = 10 from rfl]
          omega
        simp [UI.update, h0, h2, List.length_append, h1]
      · have hcond : UI.capacity ≤ (xs.drop (xs.length - 10)).length := by
          rw [show UI.capacity = 10 from rfl, List.length_drop]
          omega
        rw [UI.update, if_pos hcond, List.tail_drop,
          show xs.length - 10 + 1 = xs.length + 1 - 10 from by omega]
        rw [List.length_append, List.length_singleton,
          List.drop_append_of_le_length (by omega : xs.length + 1 - 10 ≤ xs.length)]
  refine ⟨?_, main samples⟩
  rw [main samples, List.length_drop]
  omega

/-- C3 (amended): a peripheral that has properties but no advertised
local name is skipped (selection continues with the rest), and — when
every enumerated peripheral does have properties — the search fails with
`DeviceNotFound` (reported as `NoSensor`) exactly when no peripheral
matches.  A peripheral lacking properties is not skipped: the double
`unwrap()` panics (see the counterexample). -/
theorem find_sensor_amended :
    (∀ rest : List TemperatureSendor.Peripheral,
      TemperatureSendor.find_sensor ({ properties := some { local_name := none } } :: rest)
        = TemperatureSendor.find_sensor rest) ∧
    (∀ ps : List TemperatureSendor.Peripheral,
      (∀ p ∈ ps, p.properties.isSome) →
      (TemperatureSendor.find_sensor ps = .err ↔
        ∀ p ∈ ps, TemperatureSendor.peripheral_matches p = false)) := by
  constructor
  · intro rest
    rfl
  · intro ps
    induction ps with
    | nil =>
      intro _
      simp [TemperatureSendor.find_sensor]
    | cons p rest ih =>
      intro h
      obtain ⟨props, hp⟩ := Option.isSome_iff_exists.mp (h p (List.mem_cons_self p rest))
      by_cases hm : props.local_name.any TemperatureSendor.name_matches = true
      · apply iff_of_false
        · simp [TemperatureSendor.find_sensor, hp, hm]
        · intro hall
          have := hall p (List.mem_cons_self p rest)
          simp [TemperatureSendor.peripheral_matches, hp, hm] at this
      · have hm2 : props.local_name.any TemperatureSendor.name_matches = false := by
          simpa using hm
        have hrec : TemperatureSendor.find_sensor (p :: rest)
            = TemperatureSendor.find_sensor rest := by
          simp [TemperatureSendor.find_sensor, hp, hm2]
        rw [hrec, ih (fun q hq => h q (List.mem_cons_of_mem p hq))]
        constructor
        · intro hall q hq
          rcases List.mem_cons.mp hq with rfl | hq2
          · simp [TemperatureSendor.peripheral_matches, hp, hm2]
          · exact hall q hq2
        · intro hall q hq
          exact hall q (List.mem_cons_of_mem p hq)

/-- Witness for C3 (amended): a named-but-unmatching peripheral after a
nameless one; the nameless one is skipped, and the singleton list with
the unmatching name fails with `NoSensor`. -/
theorem find_sensor_amended_w :
    TemperatureSendor.find_sensor [{ properties := some { local_name := none } },
        { properties := some { local_name := some "Kitchen" } }]
      = TemperatureSendor.find_sensor [{ properties := some { local_name := some "Kitchen" } }] ∧
    (TemperatureSendor.find_sensor [{ properties := some { local_name := some "Kitchen" } }]
        = .err ↔
      ∀ p ∈ ([{ properties := some { local_name := some "Kitchen" } }] :
          List TemperatureSendor.Peripheral),
        TemperatureSendor.peripheral_matches p = false) :=
  ⟨find_sensor_amended.1 _, find_sensor_amended.2 _ (by decide)⟩

/-- Counterexample for C3 as stated: a peripheral lacking properties is
not skipped — `find_sensor` panics on it (unwrap of `None`), which is
neither a skip nor the `NoSensor` failure. -/
theorem find_sensor_panic_counterexample :
    TemperatureSendor.find_sensor [{ properties := none }]
      = TemperatureSendor.FindResult.panicked ∧
    TemperatureSendor.FindResult.panicked ≠ TemperatureSendor.FindResult.err :=
  ⟨rfl, by decide⟩

/-- C8: on a list of peripherals that all carry properties, `find_sensor`
returns the first one, in enumeration order, whose advertised local name
contains the substring `"Temperature"`, and `DeviceNotFound` when none
does. -/
theorem find_sensor_first_match (ps : List TemperatureSendor.Peripheral)
    (h : ∀ p ∈ ps, p.properties.isSome) :
    TemperatureSendor.find_sensor ps
      = (ps.find? TemperatureSendor.peripheral_matches).elim .err .ok := by
  revert h
  induction ps with
  | nil =>
    intro _
    rfl
  | cons p rest ih =>
    intro h
    obtain ⟨props, hp⟩ := Option.isSome_iff_exists.mp (h p (List.mem_cons_self p rest))
    by_cases hm : props.local_name.any TemperatureSendor.name_matches = true
    · have hpm : TemperatureSendor.peripheral_matches p = true := by
        simp [TemperatureSendor.peripheral_matches, hp, hm]
      rw [List.find?_cons_of_pos _ hpm]
      simp [TemperatureSendor.find_sensor, hp, hm]
    · have hm2 : props.local_name.any TemperatureSendor.name_matches = false := by
        simpa using hm
      have hpm : TemperatureSendor.peripheral_matches p = false := by
        simp [TemperatureSendor.peripheral_matches, hp, hm2]
      rw [List.find?_cons_of_neg _ (by simp [hpm])]
      rw [show TemperatureSendor.find_sensor (p :: rest)
          = TemperatureSendor.find_sensor rest from by
        simp [TemperatureSendor.find_sensor, hp, hm2]]
      exact ih (fun q hq => h q (List.mem_cons_of_mem p hq))

/-- Witness for C8: with names `["Kitchen", "Outdoor Temperature",
"Room Temperature"]` in enumeration order, the peripheral named
`"Outdoor Temperature"` is selected. -/
theorem find_sensor_first_match_w :
    TemperatureSendor.find_sensor
        [{ properties := some { local_name := some "Kitchen" } },
         { properties := some { local_name := some "Outdoor Temperature" } },
         { properties := some { local_name := some "Room Temperature" } }]
      = .ok { properties := some { local_name := some "Outdoor Temperature" } } :=
  (find_sensor_first_match _ (by decide)).trans (by decide)

end BLETemp
